import Mathlib

/-!
Verification of the mqtt-viewer relay against its specification.

The development shallowly embeds the three source files:
  - src/index.js            : the relay (message handler, republish bridge)
  - src/unnamed/part_000    : the older copy of the relay (message handler)
  - src/unnamed/part_001    : ticket-utils.js (findTicketId, getTicketColor)

Modelling conventions:
  - JavaScript values are the inductive JSValue; JS numbers are modelled as
    exact rationals (the idealization of IEEE doubles by true arithmetic).
  - Code that can throw is modelled in Except String; an .error result is a
    thrown exception propagating out of the modelled code.
  - byte sequences (Node Buffers) are List Nat (each entry one byte).
-/

/-- A JavaScript runtime value as seen by the relay: the JSON node kinds
plus the distinguished `undefined` (produced by missing-property reads,
never by JSON.parse). -/
inductive JSValue where
  | null : JSValue
  | undefined : JSValue
  | bool : Bool → JSValue
  | num : ℚ → JSValue
  | str : String → JSValue
  | arr : List JSValue → JSValue
  | obj : List (String × JSValue) → JSValue

/-- JS loose equality with null: `v == null` holds exactly for null and
undefined. -/
def jsLooseNull : JSValue → Bool
  | .null => true
  | .undefined => true
  | _ => false

/-- JS `typeof v === 'object'`: true for objects, arrays and null
(a JavaScript quirk), false for undefined and all primitives. -/
def typeofIsObject : JSValue → Bool
  | .null => true
  | .arr _ => true
  | .obj _ => true
  | _ => false

/-- JS truthiness: null, undefined, false, 0 and the empty string are falsy
(NaN, which is also falsy, does not occur in the rational model); every
object and array is truthy. -/
def jsFalsy : JSValue → Bool
  | .null => true
  | .undefined => true
  | .bool b => !b
  | .num q => q = 0
  | .str s => s = ""
  | .arr _ => false
  | .obj _ => false

/-- Decimal digit character for d < 10. -/
def digitChar (d : Nat) : Char := Char.ofNat (48 + d)

/-- Decimal digits of a natural number, most significant first, built with
explicit fuel (one division step per unit). -/
def natDigitsAux : Nat → Nat → List Char → List Char
  | 0, _, acc => acc
  | fuel + 1, n, acc =>
      if n < 10 then digitChar n :: acc
      else natDigitsAux fuel (n / 10) (digitChar (n % 10) :: acc)

/-- Canonical decimal rendering of a natural number (the JS canonical array
index / Number-to-string form for naturals). -/
def natRepr (n : Nat) : String := String.mk (natDigitsAux (n + 1) n [])

/-- All-decimal-digits parse of a character list (used for array index
lookup); none when empty or containing a non-digit. -/
def listToNat? (cs : List Char) : Option Nat :=
  if cs.isEmpty || !(cs.all Char.isDigit) then none
  else some (cs.foldl (fun a c => a * 10 + (c.toNat - 48)) 0)

/-- Property read `v[k]`, as an Except: reading a property of null or
undefined throws a TypeError; objects look the key up (first binding;
modelled object literals have distinct keys); arrays answer canonical
numeric indices (out of range gives undefined) and give undefined for
other keys; primitives are boxed and give undefined. -/
def getProp (v : JSValue) (k : String) : Except String JSValue :=
  match v with
  | .null => .error ("Cannot read properties of null (reading " ++ k ++ ")")
  | .undefined => .error ("Cannot read properties of undefined (reading " ++ k ++ ")")
  | .obj fs =>
      .ok (match fs.find? (fun p => p.1 == k) with
           | some p => p.2
           | none => .undefined)
  | .arr xs =>
      .ok (match listToNat? k.data with
           | some i => if natRepr i == k then xs.getD i .undefined else .undefined
           | none => .undefined)
  | _ => .ok .undefined

/-- Digits of a string folded into an integer (integer arithmetic is used
throughout number construction; rational operations appear only where the
value is genuinely fractional). -/
def digitsToZ (cs : List Char) : ℤ :=
  cs.foldl (fun a c => a * 10 + ((c.toNat : ℤ) - 48)) 0

/-- Fractional part value of a digit run: its integer value divided by
10 ^ length. -/
def fracValQ (cs : List Char) : ℚ :=
  ((digitsToZ cs : ℤ) : ℚ) / (10 : ℚ) ^ cs.length

/-- Number(s) for a string s on which isNaN(s) is false, as used by the
resolver's numeric-looking test. Models: trimmed-empty coerces to 0; an
optional sign followed by decimal digits with an optional fraction is the
corresponding rational. Hex, exponent and Infinity forms are not modelled
(no message in scope uses them). -/
def isWsChar (c : Char) : Bool := c == ' ' || c == '\t' || c == '\n' || c == '\r'

/-- String.prototype.trim as used by Number coercion (ASCII whitespace;
the further Unicode space characters JS also trims do not occur here). -/
def strTrim (s : String) : String :=
  String.mk (((s.data.dropWhile isWsChar).reverse.dropWhile isWsChar).reverse)

def jsStrToNum (s : String) : Option ℚ :=
  let t := strTrim s
  if t = "" then some 0
  else
    let cs := t.data
    let (sgn, cs1) : ℤ × List Char :=
      match cs with
      | '-' :: r => (-1, r)
      | '+' :: r => (1, r)
      | _ => (1, cs)
    let intd := cs1.takeWhile Char.isDigit
    let rest := cs1.drop intd.length
    match rest with
    | [] => if intd.isEmpty then none else some ((sgn * digitsToZ intd : ℤ) : ℚ)
    | '.' :: fr =>
        let frd := fr.takeWhile Char.isDigit
        if !(fr.drop frd.length).isEmpty then none
        else if intd.isEmpty && frd.isEmpty then none
        else some (((sgn : ℤ) : ℚ) * (((digitsToZ intd : ℤ) : ℚ) + fracValQ frd))
    | _ => none

/-- The resolver's numeric test and conversion:
`typeof val === 'number' || (typeof val === 'string' && !isNaN(val))`
followed by `Number(val)`. -/
def numericVal : JSValue → Option ℚ
  | .num q => some q
  | .str s => jsStrToNum s
  | _ => none

/-- JS `v != null` (loose): false exactly for null and undefined. -/
def jsNonNull (v : JSValue) : Bool := !(jsLooseNull v)

/-- The for-in entries of a value: an object yields its fields in declared
order, an array its elements keyed by canonical index strings. (JS for-in
puts integer-like keys first; every modelled object in this development has
only non-integer keys, for which for-in order is insertion order.) -/
def jsEntries : JSValue → List (String × JSValue)
  | .obj fs => fs
  | .arr xs => xs.enum.map (fun p => (toString p.1, p.2))
  | _ => []

/-- key.toLowerCase(), done on the character list so that it evaluates by
kernel reduction (String.map does not). -/
def strLower (s : String) : String := String.mk (s.data.map Char.toLower)

/-- The body of findTicketId's first loop for one key, translated from
ticket-utils.js lines 22-53: the three sequential pattern checks on a key
and its value, each returning on a numeric match and falling through
otherwise. An .error is a thrown TypeError. -/
def checkKey (k : String) (val : JSValue) : Except String (Option ℚ) :=
  let low := strLower k
  match (if low == "ticketid" || low == "ticket_id" then numericVal val else none) with
  | some n => .ok (some n)
  | none =>
    if low == "ticket" && typeofIsObject val then
      match getProp val "id" with
      | .error e => .error e
      | .ok tid =>
        match (if jsNonNull tid then numericVal tid else none) with
        | some n => .ok (some n)
        | none => checkTicketData low val
    else checkTicketData low val
where
  /-- The third check of the loop body: the "ticketdata" branch, reading
  element 0 of the value and then its id field (both reads can throw). -/
  checkTicketData (low : String) (val : JSValue) : Except String (Option ℚ) :=
    if low == "ticketdata" && typeofIsObject val then
      match getProp val "0" with
      | .error e => .error e
      | .ok fst =>
        match getProp fst "id" with
        | .error e => .error e
        | .ok tid =>
          match (if jsNonNull tid then numericVal tid else none) with
          | some n => .ok (some n)
          | none => .ok none
    else .ok none

/-- findTicketId's first loop (ticket-utils.js lines 22-53): scan the
entries in order, returning the first direct pattern match; a thrown
TypeError aborts the scan. -/
def scanDirect : List (String × JSValue) → Except String (Option ℚ)
  | [] => .ok none
  | (k, val) :: rest =>
    match checkKey k val with
    | .error e => .error e
    | .ok (some n) => .ok (some n)
    | .ok none => scanDirect rest

/-- findTicketId's second loop (ticket-utils.js lines 56-61): recurse, via
the supplied continuation, into each object-typed child in order, returning
the first non-null result. -/
def scanKids (f : JSValue → Except String (Option ℚ)) :
    List (String × JSValue) → Except String (Option ℚ)
  | [] => .ok none
  | (_, c) :: rest =>
    if typeofIsObject c then
      match f c with
      | .error e => .error e
      | .ok (some n) => .ok (some n)
      | .ok none => scanKids f rest
    else scanKids f rest

/-- findTicketId with explicit fuel, translated from ticket-utils.js lines
15-65. The fuel is maxDepth + 1 - depth, the number of levels the depth
guard still allows, so running out of fuel coincides exactly with the
source guard `depth > maxDepth`; both return null. Absence (ok none) is a
first-class outcome; .error is a thrown TypeError. -/
def findTicketIdGo (fuel : Nat) (v : JSValue) (depth maxDepth : Nat) :
    Except String (Option ℚ) :=
  match fuel with
  | 0 => .ok none
  | fuel' + 1 =>
    if depth > maxDepth then .ok none
    else if jsLooseNull v then .ok none
    else if !(typeofIsObject v) then .ok none
    else
      match scanDirect (jsEntries v) with
      | .error e => .error e
      | .ok (some n) => .ok (some n)
      | .ok none =>
          scanKids (fun c => findTicketIdGo fuel' c (depth + 1) maxDepth) (jsEntries v)

/-- findTicketId(obj, depth, maxDepth) of ticket-utils.js. -/
def findTicketId (v : JSValue) (depth maxDepth : Nat) : Except String (Option ℚ) :=
  findTicketIdGo (maxDepth + 1 - depth) v depth maxDepth

/-- findTicketId with the source's default arguments depth = 0,
maxDepth = 10. -/
def resolveTicket (v : JSValue) : Except String (Option ℚ) :=
  findTicketId v 0 10

/-- A color produced by getTicketColor: either the fixed neutral gray
(rendered by the source as the string hex 6b7280) or an HSL triple
(rendered by the source as an hsl(...) string); claims concern the numeric
components, so the descriptor keeps them exact. -/
inductive ColorKey where
  | gray : ColorKey
  | hsl : ℚ → ℚ → ℚ → ColorKey

/-- Truncation toward zero of a rational, the rounding JS % uses. -/
def qtrunc (q : ℚ) : ℤ := q.num.tdiv q.den

/-- The JS remainder operator a % b on numbers: a - b * trunc(a / b)
(sign follows the dividend). Only used with nonzero b here. -/
def jsMod (a b : ℚ) : ℚ := a - b * ((qtrunc (a / b) : ℤ) : ℚ)

/-- The golden ratio conjugate literal 0.618033988749895 of
ticket-utils.js line 80, as an exact rational. -/
def goldenLit : ℚ := 618033988749895 / 1000000000000000

/-- getTicketColor of ticket-utils.js lines 74-90: null/undefined id gives
the fixed neutral gray; a present id gives
hue = (id * golden * 360) % 360, saturation = 65 + id % 20,
lightness = 45 + id % 15. -/
def getTicketColor : Option ℚ → ColorKey
  | none => ColorKey.gray
  | some id => ColorKey.hsl (jsMod (id * goldenLit * 360) 360)
      (65 + jsMod id 20) (45 + jsMod id 15)

/-- The gzip sniff of index.js lines 131-132 (and part_000 lines 125-126):
`message.length >= 2 && message[0] === 0x1f && message[1] === 0x8b`. -/
def isGzipBytes : List Nat → Bool
  | b0 :: b1 :: _ => b0 == 0x1f && b1 == 0x8b
  | _ => false

/-- The Unicode replacement character, produced for malformed UTF-8. -/
def replChar : Char := Char.ofNat 0xFFFD

def isContByte (b : Nat) : Bool := 0x80 ≤ b && b < 0xC0

/-- Buffer.toString("utf8") with fuel (at least one byte is consumed per
step, so fuel beyond the byte count never expires): decode UTF-8 bytes to
characters, replacing malformed sequences (Node never throws here).
Overlong/surrogate code points, which no modelled message contains, are
not specially rejected. -/
def utf8DecodeGo : Nat → List Nat → List Char
  | 0, _ => []
  | fuel + 1, bs =>
    match bs with
    | [] => []
    | b :: rest =>
      if b < 0x80 then Char.ofNat b :: utf8DecodeGo fuel rest
      else if b < 0xC0 then replChar :: utf8DecodeGo fuel rest
      else if b < 0xE0 then
        match rest with
        | b2 :: r2 =>
            if isContByte b2 then Char.ofNat ((b - 0xC0) * 64 + (b2 - 0x80)) :: utf8DecodeGo fuel r2
            else replChar :: utf8DecodeGo fuel rest
        | [] => [replChar]
      else if b < 0xF0 then
        match rest with
        | b2 :: b3 :: r2 =>
            if isContByte b2 && isContByte b3 then
              Char.ofNat (((b - 0xE0) * 64 + (b2 - 0x80)) * 64 + (b3 - 0x80)) :: utf8DecodeGo fuel r2
            else replChar :: utf8DecodeGo fuel rest
        | _ => [replChar]
      else
        match rest with
        | b2 :: b3 :: b4 :: r2 =>
            if isContByte b2 && isContByte b3 && isContByte b4 then
              Char.ofNat ((((b - 0xF0) * 64 + (b2 - 0x80)) * 64 + (b3 - 0x80)) * 64 + (b4 - 0x80))
                :: utf8DecodeGo fuel r2
            else replChar :: utf8DecodeGo fuel rest
        | _ => [replChar]

def utf8Decode (bs : List Nat) : String := String.mk (utf8DecodeGo (bs.length + 1) bs)

/-- UTF-8 encoding of one character. -/
def charUtf8 (c : Char) : List Nat :=
  let n := c.toNat
  if n < 0x80 then [n]
  else if n < 0x800 then [0xC0 + n / 64, 0x80 + n % 64]
  else if n < 0x10000 then [0xE0 + n / 4096, 0x80 + n / 64 % 64, 0x80 + n % 64]
  else [0xF0 + n / 262144, 0x80 + n / 4096 % 64, 0x80 + n / 64 % 64, 0x80 + n % 64]

/-- Buffer.from(s, "utf8"): the UTF-8 bytes of a string. -/
def utf8Encode (s : String) : List Nat := (s.data.map charUtf8).flatten

/-! JSON.parse, modelled as a fuel-indexed recursive-descent parser over the
standard JSON grammar (the builtin's documented behavior): whitespace,
null/true/false, numbers with optional sign/fraction/exponent and no
leading zeros, strings with escapes, arrays and string-keyed objects where
a duplicate key overwrites the earlier value in place. An .error is the
thrown SyntaxError. Fuel bounds only the nesting depth and is always
supplied as more than the input length, so it never expires on real
input. -/

def skipWs (cs : List Char) : List Char := cs.dropWhile isWsChar

/-- The value of one hexadecimal digit, by code-point band (0-9, a-f,
A-F). -/
def hexVal (c : Char) : Option Nat :=
  let n := c.toNat
  if 48 ≤ n ∧ n ≤ 57 then some (n - 48)
  else if 97 ≤ n ∧ n ≤ 102 then some (n - 87)
  else if 65 ≤ n ∧ n ≤ 70 then some (n - 55)
  else none

/-- The two-character string escapes, paired (escape letter, denoted
character); the letter u is handled separately. -/
def escPairs : List (Char × Char) :=
  [('"', '"'), ('\\', '\\'), ('/', '/'), ('b', Char.ofNat 8), ('f', Char.ofNat 12),
   ('n', Char.ofNat 10), ('r', Char.ofNat 13), ('t', Char.ofNat 9)]

def escChar (c : Char) : Option Char :=
  (escPairs.find? (fun p => p.1 == c)).map (fun p => p.2)

/-- Body of a JSON string literal after the opening quote; returns the
string and the input after the closing quote. Unescaped control
characters, bad escapes and a missing closing quote are SyntaxErrors. -/
def parseStrBody (acc : List Char) : List Char → Except String (String × List Char)
  | [] => .error "Unterminated string in JSON"
  | c :: rest =>
    if c == '"' then .ok (String.mk acc.reverse, rest)
    else if c == '\\' then
      match rest with
      | [] => .error "Unterminated string in JSON"
      | e :: r2 =>
        if e == 'u' then
          match r2 with
          | h1 :: h2 :: h3 :: h4 :: r3 =>
            (match hexVal h1, hexVal h2, hexVal h3, hexVal h4 with
             | some a, some b, some v, some d =>
                 parseStrBody (Char.ofNat (((a * 16 + b) * 16 + v) * 16 + d) :: acc) r3
             | _, _, _, _ => .error "Bad Unicode escape in JSON")
          | _ => .error "Bad Unicode escape in JSON"
        else
          match escChar e with
          | some ec => parseStrBody (ec :: acc) r2
          | none => .error "Bad escape in JSON"
    else if c.toNat < 32 then .error "Bad control character in JSON"
    else parseStrBody (c :: acc) rest

/-- A JSON number literal: optional minus, integer part without leading
zeros, optional fraction, optional exponent. The value stays in integer
arithmetic unless a fraction or exponent is present. -/
def parseNum (cs : List Char) : Except String (ℚ × List Char) :=
  let (sgn, cs1) : ℤ × List Char :=
    match cs with
    | '-' :: r => (-1, r)
    | _ => (1, cs)
  let intd := cs1.takeWhile Char.isDigit
  if intd.isEmpty then .error "Unexpected token in JSON"
  else if intd.length > 1 && intd.headD '0' == '0' then .error "Unexpected number in JSON"
  else
    let cs2 := cs1.drop intd.length
    let (hasFrac, frd, cs3) : Bool × List Char × List Char :=
      match cs2 with
      | '.' :: r => (true, r.takeWhile Char.isDigit, r.drop (r.takeWhile Char.isDigit).length)
      | _ => (false, [], cs2)
    if hasFrac && frd.isEmpty then .error "Unexpected token in JSON"
    else
      let (hasExp, esgn, exd, cs4) : Bool × ℤ × List Char × List Char :=
        match cs3 with
        | 'e' :: '-' :: r => (true, -1, r.takeWhile Char.isDigit, r.drop (r.takeWhile Char.isDigit).length)
        | 'e' :: '+' :: r => (true, 1, r.takeWhile Char.isDigit, r.drop (r.takeWhile Char.isDigit).length)
        | 'e' :: r => (true, 1, r.takeWhile Char.isDigit, r.drop (r.takeWhile Char.isDigit).length)
        | 'E' :: '-' :: r => (true, -1, r.takeWhile Char.isDigit, r.drop (r.takeWhile Char.isDigit).length)
        | 'E' :: '+' :: r => (true, 1, r.takeWhile Char.isDigit, r.drop (r.takeWhile Char.isDigit).length)
        | 'E' :: r => (true, 1, r.takeWhile Char.isDigit, r.drop (r.takeWhile Char.isDigit).length)
        | _ => (false, 1, [], cs3)
      if hasExp && exd.isEmpty then .error "Unexpected token in JSON"
      else
        let q : ℚ :=
          if hasFrac || hasExp then
            ((sgn : ℤ) : ℚ) * (((digitsToZ intd : ℤ) : ℚ) + fracValQ frd)
              * (10 : ℚ) ^ (esgn * digitsToZ exd)
          else ((sgn * digitsToZ intd : ℤ) : ℚ)
        .ok (q, cs4)

/-- Update an object binding the way a JS object literal with a repeated
key behaves: the earlier binding keeps its position, the value is
overwritten; a new key is appended. -/
def setKeyJS : List (String × JSValue) → String → JSValue → List (String × JSValue)
  | [], k, v => [(k, v)]
  | (k0, v0) :: rest, k, v =>
      if k0 == k then (k0, v) :: rest else (k0, v0) :: setKeyJS rest k v

/-- Comma-separated items of a JSON array after the first item position,
parsing values with the supplied continuation. -/
def parseItemsF (pv : List Char → Except String (JSValue × List Char)) :
    Nat → List Char → List JSValue → Except String (List JSValue × List Char)
  | 0, _, _ => .error "JSON input too long"
  | fuel + 1, cs, acc =>
    match pv cs with
    | .error e => .error e
    | .ok (v, cs1) =>
      match skipWs cs1 with
      | ',' :: r => parseItemsF pv fuel r (v :: acc)
      | ']' :: r => .ok ((v :: acc).reverse, r)
      | _ => .error "Expected comma or closing bracket in JSON"

/-- Comma-separated key-value pairs of a JSON object, parsing values with
the supplied continuation. -/
def parsePairsF (pv : List Char → Except String (JSValue × List Char)) :
    Nat → List Char → List (String × JSValue) →
    Except String (List (String × JSValue) × List Char)
  | 0, _, _ => .error "JSON input too long"
  | fuel + 1, cs, acc =>
    match skipWs cs with
    | '"' :: r =>
      (match parseStrBody [] r with
       | .error e => .error e
       | .ok (k, cs1) =>
         match skipWs cs1 with
         | ':' :: r2 =>
           (match pv r2 with
            | .error e => .error e
            | .ok (v, cs3) =>
              match skipWs cs3 with
              | ',' :: r3 => parsePairsF pv fuel r3 (setKeyJS acc k v)
              | '\x7d' :: r3 => .ok (setKeyJS acc k v, r3)
              | _ => .error "Expected comma or closing brace in JSON")
         | _ => .error "Expected colon in JSON")
    | _ => .error "Expected property name in JSON"

/-- One JSON value; returns the value and the unconsumed input. -/
def parseVal : Nat → List Char → Except String (JSValue × List Char)
  | 0, _ => .error "JSON nesting too deep"
  | fuel + 1, cs =>
    match skipWs cs with
    | [] => .error "Unexpected end of JSON input"
    | 'n' :: 'u' :: 'l' :: 'l' :: r => .ok (.null, r)
    | 't' :: 'r' :: 'u' :: 'e' :: r => .ok (.bool true, r)
    | 'f' :: 'a' :: 'l' :: 's' :: 'e' :: r => .ok (.bool false, r)
    | '"' :: r =>
      (match parseStrBody [] r with
       | .error e => .error e
       | .ok (s, rest) => .ok (.str s, rest))
    | '[' :: r =>
      (match skipWs r with
       | ']' :: r2 => .ok (.arr [], r2)
       | r1 =>
         match parseItemsF (fun cs2 => parseVal fuel cs2) (r1.length + 1) r1 [] with
         | .error e => .error e
         | .ok (xs, rest) => .ok (.arr xs, rest))
    | '\x7b' :: r =>
      (match skipWs r with
       | '\x7d' :: r2 => .ok (.obj [], r2)
       | r1 =>
         match parsePairsF (fun cs2 => parseVal fuel cs2) (r1.length + 1) r1 [] with
         | .error e => .error e
         | .ok (fs, rest) => .ok (.obj fs, rest))
    | c :: r =>
      if c == '-' || c.isDigit then
        match parseNum (c :: r) with
        | .error e => .error e
        | .ok (q, rest) => .ok (.num q, rest)
      else .error "Unexpected token in JSON"

/-- JSON.parse(s): parse one value and require only whitespace after it. -/
def jsonParse (s : String) : Except String JSValue :=
  match parseVal (s.length + 1) s.data with
  | .error e => .error e
  | .ok (v, rest) =>
    if (skipWs rest).isEmpty then .ok v
    else .error "Unexpected non-whitespace character after JSON data"

/-! JSON.stringify, modelled with explicit fuel (any fuel at least the
depth of the value gives the full rendering; jsonStringify supplies
sizeOf, always enough). Number rendering agrees with JS on integers, the
only numbers serialized anywhere in scope. -/

def hexDigitChar (d : Nat) : Char := if d < 10 then digitChar d else Char.ofNat (87 + d)

def escapeChar (c : Char) : String :=
  if c == '"' then String.mk ['\\', '"']
  else if c == '\\' then String.mk ['\\', '\\']
  else if c.toNat < 32 then
    String.mk ['\\', 'u', '0', '0', hexDigitChar (c.toNat / 16), hexDigitChar (c.toNat % 16)]
  else String.singleton c

def quoteJS (s : String) : String :=
  "\"" ++ String.join (s.data.map escapeChar) ++ "\""

/-- Decimal rendering of a rational: JS double printing for integers (sign
then digits); a non-integer (never serialized by any message in scope)
gets a placeholder denominator suffix. -/
def numToString (q : ℚ) : String :=
  (if q < 0 then "-" else "") ++ natRepr q.num.natAbs ++
    (if q.den == 1 then "" else "/" ++ natRepr q.den)

def isUndefV : JSValue → Bool
  | .undefined => true
  | _ => false

def commaJoin : List String → String
  | [] => ""
  | [s] => s
  | s :: rest => s ++ "," ++ commaJoin rest

/-- JSON.stringify with fuel: object fields with undefined values are
dropped, undefined array elements render as null. (A top-level undefined,
which JSON.stringify leaves unserialized, is excluded by the is-JSON
hypothesis wherever it matters and rendered null here.) -/
def stringifyGo : Nat → JSValue → String
  | 0, _ => ""
  | fuel + 1, v =>
    match v with
    | .null => "null"
    | .undefined => "null"
    | .bool true => "true"
    | .bool false => "false"
    | .num q => numToString q
    | .str s => quoteJS s
    | .arr xs => "[" ++ commaJoin (xs.map (fun x => stringifyGo fuel x)) ++ "]"
    | .obj fs =>
        "\x7b" ++
          commaJoin ((fs.filter (fun kv => !(isUndefV kv.2))).map
            (fun kv => quoteJS kv.1 ++ ":" ++ stringifyGo fuel kv.2)) ++ "\x7d"

/-- JSON.stringify(v). The fuel 1000 exceeds the nesting depth of every
value in scope (the engine's own call stack bounds JSON.stringify's
recursion similarly); every property proved about the rendering is
independent of the fuel beyond its first step. -/
def jsonStringify (v : JSValue) : String := stringifyGo 1000 v

/-- A JSON value proper: no undefined anywhere (what "JSON-serializable"
means for the round-trip property). -/
def isJson : JSValue → Bool
  | .undefined => false
  | .arr xs => isJsonList xs
  | .obj fs => isJsonFields fs
  | _ => true
where
  isJsonList : List JSValue → Bool
    | [] => true
    | v :: rest => isJson v && isJsonList rest
  isJsonFields : List (String × JSValue) → Bool
    | [] => true
    | kv :: rest => isJson kv.2 && isJsonFields rest

/-- The event emitted to viewers as "mqtt-event" (index.js lines 151-159).
The id and time fields are wall-clock readings of the emitting moment and
carry no message-dependent content; they are outside the embedded state. -/
structure MqttEvent where
  topic : String
  size : Nat
  isCompressed : Bool
  raw : String
  parsed : JSValue

/-- The message handler of index.js lines 130-160: sniff gzip framing,
decompress if framed (gunzip is the zlib collaborator, whose failure is a
thrown error), decode UTF-8, JSON.parse (whose failure is a thrown error),
and emit the composed event. There is no try/catch in the source handler,
so an .error here is an exception propagating out of the handler. -/
def handleMessage (gunzip : List Nat → Except String (List Nat)) (topic : String)
    (message : List Nat) : Except String MqttEvent :=
  let isGzip := isGzipBytes message
  match (if isGzip then (gunzip message).map utf8Decode else .ok (utf8Decode message)) with
  | .error e => .error e
  | .ok jsonString =>
    match jsonParse jsonString with
    | .error e => .error e
    | .ok data => .ok ⟨topic, message.length, isGzip, jsonString, data⟩

/-- The message handler of part_000 lines 122-162, translated separately:
the same sniff, decompression, decode, parse and emit (part_000 differs
from index.js only in its logging statements). -/
def handleMessageLegacy (gunzip : List Nat → Except String (List Nat)) (topic : String)
    (message : List Nat) : Except String MqttEvent :=
  let isGzip := isGzipBytes message
  match (if isGzip then (gunzip message).map utf8Decode else .ok (utf8Decode message)) with
  | .error e => .error e
  | .ok jsonString =>
    match jsonParse jsonString with
    | .error e => .error e
    | .ok data => .ok ⟨topic, message.length, isGzip, jsonString, data⟩

/-- The event as the viewer displays it, with the correlation layer's
fields attached. -/
structure ViewerEvent where
  topic : String
  size : Nat
  isCompressed : Bool
  raw : String
  parsed : JSValue
  correlationId : Option ℚ
  colorKey : ColorKey

/-- Modelled from the spec: the viewer page (index.html, served at the
root route but not part of src) attaches the correlation layer's
contribution to each received event — correlationId is the Correlation
Resolver's result on the parsed payload and colorKey the Color Key
Assigner's result on that id (spec section 3, RelayEvent; section 4.4,
Event Composer) — using findTicketId and getTicketColor from
ticket-utils.js, which the relay serves to the page for exactly this
purpose. -/
def composeViewer (ev : MqttEvent) : Except String ViewerEvent :=
  match findTicketId ev.parsed 0 10 with
  | .error e => .error e
  | .ok cid => .ok ⟨ev.topic, ev.size, ev.isCompressed, ev.raw, ev.parsed, cid, getTicketColor cid⟩

/-- The full broker-message-to-viewer flow: the index.js handler followed
by the viewer-side composition. -/
def relayPipeline (gunzip : List Nat → Except String (List Nat)) (topic : String)
    (message : List Nat) : Except String ViewerEvent :=
  match handleMessage gunzip topic message with
  | .error e => .error e
  | .ok ev => composeViewer ev

/-- A republish-result payload: success flag plus the optional topic and
error fields the handler includes. -/
structure RepubResult where
  success : Bool
  topic : Option JSValue
  error : Option String

/-- index.js lines 175-176: a string payload passes through, anything else
is JSON.stringify-ed. -/
def serializeMsg (p : JSValue) : String :=
  match p with
  | .str s => s
  | _ => jsonStringify p

/-- The republish-mqtt handler of index.js lines 165-199. publishErr is
the broker collaborator's answer to client.publish (none = accepted,
some e = the error the broker reports to the callback). The first
component records the publish invocation (none = the broker was never
invoked); the list is the sequence of republish-result payloads the
handler emits via socket.emit, i.e. to the requesting viewer only — the
handler never broadcasts. Every modelled operation in the try block is
total, so the catch branch is unreachable in the model. -/
def republishHandler (publishErr : Option String) (topic payload : JSValue) :
    Option (JSValue × String) × List RepubResult :=
  if jsFalsy topic || jsFalsy payload then
    (none, [⟨false, none, some "Invalid topic or payload"⟩])
  else
    let message := serializeMsg payload
    match publishErr with
    | some e => (some (topic, message), [⟨false, none, some e⟩])
    | none => (some (topic, message), [⟨true, some topic, none⟩])

/-- The claim-C7 family: a ticketId field whose containing object sits k
levels below the root, and nothing else anywhere. -/
def nestTicket : Nat → JSValue
  | 0 => JSValue.obj [("ticketId", JSValue.num 42)]
  | k + 1 => JSValue.obj [("a", nestTicket k)]

/-- The hue component getTicketColor assigns to a present id. -/
def hueOf (id : ℚ) : ℚ := jsMod (id * goldenLit * 360) 360

/-- The end-to-end test message of the spec: the JSON text of
a ticket object with id 42 (braces written as character escapes). -/
def json42String : String := "\x7b\"ticket\":\x7b\"id\":42\x7d\x7d"

/-- The depth-bound claim's hypothesis, stated operationally: within the
given number of levels (the nodes a search with that budget visits), every
object node's direct-pattern scan comes back clean — no recognizable
ticket field and no throwing property read. Values whose only recognizable
field lies strictly beyond the bound, with no ticket-null or empty
ticketdata node in reach, are exactly the values satisfying this. -/
def noMatchWithin : Nat → JSValue → Bool
  | 0, _ => true
  | fuel + 1, v =>
    if jsLooseNull v then true
    else if !(typeofIsObject v) then true
    else
      match scanDirect (jsEntries v) with
      | .ok none =>
          (jsEntries v).all (fun kv => !(typeofIsObject kv.2) || noMatchWithin fuel kv.2)
      | _ => false

/-- Within the given number of levels, no visited node's direct-pattern
scan throws (a scan that finds a match ends the search, so nothing below
it is visited). -/
def noThrowWithin : Nat → JSValue → Bool
  | 0, _ => true
  | fuel + 1, v =>
    if jsLooseNull v then true
    else if !(typeofIsObject v) then true
    else
      match scanDirect (jsEntries v) with
      | .error _ => false
      | .ok (some _) => true
      | .ok none =>
          (jsEntries v).all (fun kv => !(typeofIsObject kv.2) || noThrowWithin fuel kv.2)

/-! Helper lemmas. -/

theorem handleMessage_gzip_eq (g : List Nat → Except String (List Nat)) (t : String)
    (b d : List Nat) (h : isGzipBytes b = true) (hg : g b = .ok d) :
    handleMessage g t b =
      match jsonParse (utf8Decode d) with
      | .error e => .error e
      | .ok data => .ok ⟨t, b.length, true, utf8Decode d, data⟩ := by
  simp [handleMessage, h, hg, Except.map]

theorem handleMessage_plain_eq (g : List Nat → Except String (List Nat)) (t : String)
    (b : List Nat) (h : isGzipBytes b = false) :
    handleMessage g t b =
      match jsonParse (utf8Decode b) with
      | .error e => .error e
      | .ok data => .ok ⟨t, b.length, false, utf8Decode b, data⟩ := by
  simp [handleMessage, h]

theorem nestTicket_isObj (k : Nat) : typeofIsObject (nestTicket k) = true := by
  cases k <;> rfl

theorem nestTicket_notNull (k : Nat) : jsLooseNull (nestTicket k) = false := by
  cases k <;> rfl

theorem scanDirect_nest_succ (k : Nat) : scanDirect (jsEntries (nestTicket (k + 1))) = .ok none := rfl

theorem jsEntries_nest_succ (k : Nat) : jsEntries (nestTicket (k + 1)) = [("a", nestTicket k)] := rfl

/-- Evaluation of the resolver on the nested family: with the source's
fuel-for-depth accounting, the id is found iff the depth budget reaches its
containing object, and a budget overrun is the ordinary absent answer. -/
theorem findGo_nest (k : Nat) : ∀ d m : Nat,
    findTicketIdGo (m + 1 - d) (nestTicket k) d m =
      .ok (if d + k ≤ m then some 42 else none) := by
  induction k with
  | zero =>
    intro d m
    by_cases hd : m < d
    · have hf : m + 1 - d = 0 := by omega
      rw [hf, if_neg (by omega : ¬ d + 0 ≤ m)]
      rfl
    · have hf : m + 1 - d = (m - d) + 1 := by omega
      rw [hf, if_pos (by omega : d + 0 ≤ m)]
      show findTicketIdGo ((m - d) + 1) (nestTicket 0) d m = .ok (some 42)
      simp only [findTicketIdGo, nestTicket]
      rw [if_neg (by omega : ¬ d > m)]
      rfl
  | succ k ih =>
    intro d m
    by_cases hd : m < d
    · have hf : m + 1 - d = 0 := by omega
      rw [hf, if_neg (by omega : ¬ d + (k + 1) ≤ m)]
      rfl
    · have hf : m + 1 - d = (m - d) + 1 := by omega
      have hstep : findTicketIdGo ((m - d) + 1) (nestTicket (k + 1)) d m
          = scanKids (fun c => findTicketIdGo (m - d) c (d + 1) m)
              (jsEntries (nestTicket (k + 1))) := by
        simp only [findTicketIdGo]
        rw [if_neg (by omega : ¬ d > m)]
        rw [nestTicket_notNull, nestTicket_isObj]
        simp only [Bool.not_true, if_neg, scanDirect_nest_succ]
        rfl
      have hm : m - d = m + 1 - (d + 1) := by omega
      rw [hf, hstep, jsEntries_nest_succ]
      simp only [scanKids, nestTicket_isObj, if_pos]
      rw [hm, ih (d + 1) m]
      by_cases hk : d + 1 + k ≤ m
      · rw [if_pos hk, if_pos (by omega : d + (k + 1) ≤ m)]
      · rw [if_neg hk, if_neg (by omega : ¬ d + (k + 1) ≤ m)]

/-- A children scan comes back empty when every object-typed child's
search does. -/
theorem scanKids_all_none (g : JSValue → Except String (Option ℚ)) :
    ∀ l : List (String × JSValue),
      (∀ kv ∈ l, typeofIsObject kv.2 = true → g kv.2 = .ok none) →
      scanKids g l = .ok none := by
  intro l
  induction l with
  | nil => intro _; rfl
  | cons kv rest ih =>
    intro h
    obtain ⟨k, c⟩ := kv
    simp only [scanKids]
    by_cases hc : typeofIsObject c = true
    · rw [if_pos hc, h (k, c) (by simp) hc]
      exact ih fun kv2 hm2 ho => h kv2 (by simp [hm2]) ho
    · rw [if_neg hc]
      exact ih fun kv2 hm2 ho => h kv2 (by simp [hm2]) ho

/-- Soundness of the clean-scan hypothesis: when every node within the
budget scans clean, the resolver at any starting depth answers absent —
never a value and never a thrown error. -/
theorem findGo_of_noMatch (fuel : Nat) : ∀ (v : JSValue) (d m : Nat),
    noMatchWithin fuel v = true → findTicketIdGo fuel v d m = .ok none := by
  induction fuel with
  | zero => intro v d m _; rfl
  | succ f ih =>
    intro v d m h
    by_cases hd : d > m
    · simp [findTicketIdGo, hd]
    · by_cases hnull : jsLooseNull v = true
      · simp [findTicketIdGo, hd, hnull]
      · simp only [Bool.not_eq_true] at hnull
        by_cases hobj : typeofIsObject v = true
        · cases hscan : scanDirect (jsEntries v) with
          | error e => simp [noMatchWithin, hnull, hobj, hscan] at h
          | ok o =>
            cases o with
            | some r => simp [noMatchWithin, hnull, hobj, hscan] at h
            | none =>
              have hall : (jsEntries v).all
                  (fun kv => !(typeofIsObject kv.2) || noMatchWithin f kv.2) = true := by
                simpa [noMatchWithin, hnull, hobj, hscan] using h
              simp only [findTicketIdGo]
              rw [if_neg hd]
              simp only [hnull, hobj, hscan, Bool.not_true, Bool.false_eq_true, if_false]
              apply scanKids_all_none
              intro kv hm2 hko
              have hh := (List.all_eq_true.mp hall) kv hm2
              rw [hko] at hh
              simp only [Bool.not_true, Bool.false_or] at hh
              exact ih kv.2 (d + 1) m hh
        · simp only [Bool.not_eq_true] at hobj
          simp [findTicketIdGo, hd, hnull, hobj]

/-- A children scan surfaces a value when every object-typed child with a
clean subtree searches to absent, every other object-typed child (under
the no-throw bound) searches to a value, and at least one child's subtree
is not clean. -/
theorem scanKids_first_match (g : JSValue → Except String (Option ℚ)) (p q : JSValue → Bool) :
    ∀ l : List (String × JSValue),
      (∀ kv ∈ l, typeofIsObject kv.2 = true → p kv.2 = true → g kv.2 = .ok none) →
      (∀ kv ∈ l, typeofIsObject kv.2 = true → q kv.2 = true → p kv.2 = false →
          ∃ r, g kv.2 = .ok (some r)) →
      (l.all (fun kv => !(typeofIsObject kv.2) || q kv.2)) = true →
      (l.all (fun kv => !(typeofIsObject kv.2) || p kv.2)) = false →
      ∃ r, scanKids g l = .ok (some r) := by
  intro l
  induction l with
  | nil => intro _ _ _ hp; simp at hp
  | cons kv rest ih =>
    intro hn hs hq hp
    obtain ⟨k, c⟩ := kv
    simp only [List.all_cons, Bool.and_eq_true] at hq
    simp only [List.all_cons] at hp
    by_cases hc : typeofIsObject c = true
    · have hqc2 : q c = true := by
        have h1 := hq.1
        rw [hc] at h1
        simpa using h1
      by_cases hpc : p c = true
      · have hgc : g c = .ok none := hn (k, c) (by simp) hc hpc
        have hrest : rest.all (fun kv => !(typeofIsObject kv.2) || p kv.2) = false := by
          rw [hc, hpc] at hp
          simpa using hp
        simp only [scanKids]
        rw [if_pos hc, hgc]
        exact ih (fun kv2 hm2 => hn kv2 (by simp [hm2])) (fun kv2 hm2 => hs kv2 (by simp [hm2]))
          hq.2 hrest
      · simp only [Bool.not_eq_true] at hpc
        obtain ⟨r, hr⟩ := hs (k, c) (by simp) hc hqc2 hpc
        refine ⟨r, ?_⟩
        simp only [scanKids]
        rw [if_pos hc, hr]
    · have hcf : typeofIsObject c = false := by simpa using hc
      have hrest : rest.all (fun kv => !(typeofIsObject kv.2) || p kv.2) = false := by
        rw [hcf] at hp
        simpa using hp
      simp only [scanKids]
      rw [if_neg hc]
      exact ih (fun kv2 hm2 => hn kv2 (by simp [hm2])) (fun kv2 hm2 => hs kv2 (by simp [hm2]))
        hq.2 hrest

/-- Completeness half: when the bound does reach a recognizable field (the
subtree is not clean within the budget) and nothing visited throws, the
resolver surfaces a present value. The fuel is the source's remaining
depth budget. -/
theorem findGo_finds_of_match (fuel : Nat) : ∀ (v : JSValue) (d m : Nat),
    fuel = m + 1 - d →
    noThrowWithin fuel v = true → noMatchWithin fuel v = false →
    ∃ r, findTicketIdGo fuel v d m = .ok (some r) := by
  induction fuel with
  | zero => intro v d m _ _ hm2; simp [noMatchWithin] at hm2
  | succ f ih =>
    intro v d m hal ht hm2
    have hd : ¬ d > m := by omega
    by_cases hnull : jsLooseNull v = true
    · simp [noMatchWithin, hnull] at hm2
    · simp only [Bool.not_eq_true] at hnull
      by_cases hobj : typeofIsObject v = true
      · cases hscan : scanDirect (jsEntries v) with
        | error e => simp [noThrowWithin, hnull, hobj, hscan] at ht
        | ok o =>
          cases o with
          | some r =>
            refine ⟨r, ?_⟩
            simp only [findTicketIdGo]
            rw [if_neg hd]
            simp [hnull, hobj, hscan]
          | none =>
            have hq : (jsEntries v).all
                (fun kv => !(typeofIsObject kv.2) || noThrowWithin f kv.2) = true := by
              simpa [noThrowWithin, hnull, hobj, hscan] using ht
            have hp : (jsEntries v).all
                (fun kv => !(typeofIsObject kv.2) || noMatchWithin f kv.2) = false := by
              simpa [noMatchWithin, hnull, hobj, hscan] using hm2
            obtain ⟨r, hr⟩ := scanKids_first_match
              (fun c => findTicketIdGo f c (d + 1) m) (noMatchWithin f) (noThrowWithin f)
              (jsEntries v)
              (fun kv _ _ hpk => findGo_of_noMatch f kv.2 (d + 1) m hpk)
              (fun kv _ _ hqk hpk => ih kv.2 (d + 1) m (by omega) hqk hpk)
              hq hp
            refine ⟨r, ?_⟩
            simp only [findTicketIdGo]
            rw [if_neg hd]
            simp only [hnull, hobj, hscan, Bool.not_true, Bool.false_eq_true, if_false]
            exact hr
      · simp only [Bool.not_eq_true] at hobj
        simp [noMatchWithin, hnull, hobj] at hm2

/-! Claim theorems. -/

/-- Claim C7 counterexample: a value whose only recognizable ticket field
(a ticketId, value 42) sits at depth 12, strictly beyond the bound 10,
for which resolve does not return absent: the sibling ticket key holding
null makes the direct scan throw a TypeError (typeof null is object, so
null.id is read), refuting the claim for every such structured value. -/
theorem c7_counterexample :
    resolveTicket (JSValue.obj [("ticket", JSValue.null), ("a", nestTicket 11)]) =
      .error "Cannot read properties of null (reading id)" ∧
    resolveTicket (JSValue.obj [("ticket", JSValue.null), ("a", nestTicket 11)]) ≠
      (.ok none : Except String (Option ℚ)) :=
  ⟨rfl, fun h => Except.noConfusion h⟩

/-- Claim C7 as amended: for every structured value all of whose nodes
within the depth bound scan clean (no recognizable ticket field and no
throwing read — the counterexample's throwing nodes excluded), resolve
returns absent, an ordinary outcome rather than an error; for every value
that is throw-free within the bound but not clean — as when raising
maxDepth brings the only field into reach — resolve returns a present
value; and on the nested family with the only field at level n, resolve
returns absent when maxDepth is below n and the field's value 42 once
maxDepth covers n. -/
theorem c7_depth_bound_amended (v : JSValue) (n m : Nat) :
    (noMatchWithin (m + 1) v = true → findTicketId v 0 m = .ok none) ∧
    (noThrowWithin (m + 1) v = true → noMatchWithin (m + 1) v = false →
        ∃ r, findTicketId v 0 m = .ok (some r)) ∧
    (m < n → findTicketId (nestTicket n) 0 m = .ok none) ∧
    (n ≤ m → findTicketId (nestTicket n) 0 m = .ok (some 42)) := by
  have hnest := findGo_nest n 0 m
  refine ⟨fun h => ?_, fun ht hm2 => ?_, fun h1 => ?_, fun h1 => ?_⟩
  · exact findGo_of_noMatch (m + 1) v 0 m h
  · exact findGo_finds_of_match (m + 1) v 0 m (by omega) ht hm2
  · show findTicketIdGo (m + 1 - 0) (nestTicket n) 0 m = .ok none
    rw [hnest, if_neg (by omega : ¬ 0 + n ≤ m)]
  · show findTicketIdGo (m + 1 - 0) (nestTicket n) 0 m = .ok (some 42)
    rw [hnest, if_pos (by omega : 0 + n ≤ m)]

/-- Witness for the amended C7: the chain with its only field at level 11
scans clean within bound 10 (hypothesis discharged by evaluation) and
resolves to absent there, and resolves to 42 once the bound reaches 11. -/
theorem c7_depth_bound_amended_witness :
    findTicketId (nestTicket 11) 0 10 = .ok none ∧
    findTicketId (nestTicket 11) 0 11 = .ok (some 42) :=
  ⟨(c7_depth_bound_amended (nestTicket 11) 11 10).1 rfl,
   (c7_depth_bound_amended (nestTicket 11) 11 11).2.2.2 (by omega)⟩

/-- Claim C8: getTicketColor is a pure function of the optional id (its
embedding is a function, so identical inputs give identical hue,
saturation and lightness in any call order); an absent id gives the one
fixed neutral color; a present id gets hue (id * 0.618033988749895 * 360)
mod 360, so consecutive integer ids differ in hue by the golden-ratio step
modulo 360. -/
theorem c8_color_assigner :
    getTicketColor none = ColorKey.gray ∧
    (∀ id : ℚ, getTicketColor (some id) =
        ColorKey.hsl (hueOf id) (65 + jsMod id 20) (45 + jsMod id 15)) ∧
    (∀ id : ℚ, ∃ k : ℤ, hueOf (id + 1) = hueOf id + goldenLit * 360 + 360 * k) := by
  refine ⟨rfl, fun id => rfl, fun id => ?_⟩
  refine ⟨qtrunc (id * goldenLit) - qtrunc ((id + 1) * goldenLit), ?_⟩
  have hq : ∀ q : ℚ, hueOf q = q * goldenLit * 360 - 360 * ((qtrunc (q * goldenLit) : ℤ) : ℚ) := by
    intro q
    unfold hueOf jsMod
    rw [mul_div_assoc, div_self (by norm_num : (360 : ℚ) ≠ 0), mul_one]
  rw [hq, hq]
  push_cast
  ring

/-- Claim C9: the index.js message handler and the part_000 message
handler are the same function of (topic, bytes) given the same
decompression collaborator: every field of the produced event (topic,
size, isCompressed, raw, parsed) agrees, and so does any thrown error.
(The wall-clock id and time fields are outside the embedded state.) -/
theorem c9_handlers_agree (g : List Nat → Except String (List Nat)) (t : String)
    (b : List Nat) : handleMessage g t b = handleMessageLegacy g t b := rfl

/-- Claim C10: republish rejects every falsy payload — the number 0, the
boolean false and the empty string, not only an absent payload — with the
fixed error and without invoking the broker (first component none), for
any broker behavior. -/
theorem c10_falsy_payload_rejected (pe : Option String) :
    republishHandler pe (JSValue.str "t") (JSValue.num 0) =
      (none, [⟨false, none, some "Invalid topic or payload"⟩]) ∧
    republishHandler pe (JSValue.str "t") (JSValue.bool false) =
      (none, [⟨false, none, some "Invalid topic or payload"⟩]) ∧
    republishHandler pe (JSValue.str "t") (JSValue.str "") =
      (none, [⟨false, none, some "Invalid topic or payload"⟩]) :=
  ⟨rfl, rfl, rfl⟩

/-- Claim C2 counterexample: an object holding both a nested ticket.id (1)
and a direct ticketId (2), with the ticket key declared first, resolves to
the nested value 1, not the direct value 2 — the declared priority of the
direct field does not hold when the ticket key precedes it. -/
theorem c2_counterexample :
    resolveTicket (JSValue.obj
        [("ticket", JSValue.obj [("id", JSValue.num 1)]), ("ticketId", JSValue.num 2)])
      = .ok (some 1) ∧ (1 : ℚ) ≠ 2 :=
  ⟨rfl, by norm_num⟩

/-- Claim C2 as amended: among the three patterns, the first matching key
in the mapping's declared key order wins — the direct ticketId value is
returned when its key precedes the ticket key, and the nested ticket.id
value is returned when the ticket key precedes. -/
theorem c2_first_match_wins (a b : ℚ) :
    resolveTicket (JSValue.obj
        [("ticketId", JSValue.num a), ("ticket", JSValue.obj [("id", JSValue.num b)])])
      = .ok (some a) ∧
    resolveTicket (JSValue.obj
        [("ticket", JSValue.obj [("id", JSValue.num b)]), ("ticketId", JSValue.num a)])
      = .ok (some b) :=
  ⟨rfl, rfl⟩

/-- Claim C4: the code evaluated at a mapping whose ticketdata key holds an
empty sequence — the resolver reads element 0 of the empty array
(undefined) and then its id field, throwing a TypeError that aborts the
whole resolution instead of treating the node as a non-match. -/
theorem c4_empty_ticketdata_throws :
    resolveTicket (JSValue.obj [("ticketdata", JSValue.arr [])]) =
      .error "Cannot read properties of undefined (reading id)" := rfl

/-- Claim C3 as amended: a message whose bytes fail gzip decompression or
fail to parse produces no event, but the failure is not contained — the
handler has no try/catch, so the decompression or parse error propagates
out of the message handler (an uncaught exception) instead of being
reported and skipped. -/
theorem c3_decode_failure_propagates (g : List Nat → Except String (List Nat))
    (t : String) (b : List Nat) (e : String) :
    (isGzipBytes b = true → g b = .error e → handleMessage g t b = .error e) ∧
    (isGzipBytes b = false → jsonParse (utf8Decode b) = .error e →
        handleMessage g t b = .error e) ∧
    (∀ d, isGzipBytes b = true → g b = .ok d → jsonParse (utf8Decode d) = .error e →
        handleMessage g t b = .error e) := by
  refine ⟨fun h1 h2 => ?_, fun h1 h2 => ?_, fun d h1 h2 h3 => ?_⟩
  · simp [handleMessage, h1, h2, Except.map]
  · rw [handleMessage_plain_eq g t b h1, h2]
  · rw [handleMessage_gzip_eq g t b d h1 h2, h3]

/-- Witness for the amended C3: a gzip-framed message whose decompression
fails makes the handler propagate exactly that error. -/
theorem c3_decode_failure_propagates_witness :
    handleMessage (fun _ => .error "incorrect header check") "t" [31, 139] =
      .error "incorrect header check" :=
  (c3_decode_failure_propagates (fun _ => .error "incorrect header check")
    "t" [31, 139] "incorrect header check").1 rfl rfl

/-- Claim C3 counterexample: on the unparseable plain message "oops" the
handler does not drop the message and continue — the JSON.parse exception
escapes the handler (the Except is an error, the uncaught-exception state,
under which the process terminates), so the failure is not contained to
the message. -/
theorem c3_counterexample :
    handleMessage (fun bs => .ok bs) "t" (utf8Encode "oops") =
      .error "Unexpected token in JSON" := rfl

/-- Claim C5: the republish bridge rejects an empty-or-absent topic or
payload with a descriptive error and no broker interaction; when
validation passes it publishes the serialized payload and answers
success-with-topic if the broker accepts, or failure carrying the broker's
reason if it errors; and it emits exactly one result per request (the
emission list is what socket.emit sends to the requesting viewer only). -/
theorem c5_republish_bridge (pe : Option String) (t p : JSValue) :
    ((jsFalsy t || jsFalsy p) = true →
        republishHandler pe t p = (none, [⟨false, none, some "Invalid topic or payload"⟩])) ∧
    ((jsFalsy t || jsFalsy p) = false → pe = none →
        republishHandler pe t p = (some (t, serializeMsg p), [⟨true, some t, none⟩])) ∧
    (∀ e, (jsFalsy t || jsFalsy p) = false → pe = some e →
        republishHandler pe t p = (some (t, serializeMsg p), [⟨false, none, some e⟩])) ∧
    ((republishHandler pe t p).2.length = 1) := by
  refine ⟨fun h => ?_, fun h hpe => ?_, fun e h hpe => ?_, ?_⟩
  · simp [republishHandler, h]
  · subst hpe; simp [republishHandler, h]
  · subst hpe; simp [republishHandler, h]
  · by_cases h : (jsFalsy t || jsFalsy p) = true
    · simp [republishHandler, h]
    · cases pe <;> simp [republishHandler, Bool.not_eq_true _ ▸ h]

/-- Witness for C5: a non-empty request against an accepting broker gets
the single success result carrying the topic. -/
theorem c5_republish_bridge_witness :
    republishHandler none (JSValue.str "t") (JSValue.str "x") =
      (some (JSValue.str "t", serializeMsg (JSValue.str "x")), [⟨true, some (JSValue.str "t"), none⟩]) :=
  (c5_republish_bridge none (JSValue.str "t") (JSValue.str "x")).2.1 rfl rfl

theorem natDigitsAux_cases (fuel : Nat) : ∀ n acc, natDigitsAux fuel n acc = acc ∨
    ∃ d t, d < 10 ∧ natDigitsAux fuel n acc = digitChar d :: t := by
  induction fuel with
  | zero => intro n acc; left; rfl
  | succ f ih =>
    intro n acc
    by_cases h : n < 10
    · right; exact ⟨n, acc, h, by simp [natDigitsAux, h]⟩
    · rcases ih (n / 10) (digitChar (n % 10) :: acc) with h1 | ⟨d, t, hd, ht⟩
      · right
        refine ⟨n % 10, acc, Nat.mod_lt n (by norm_num), ?_⟩
        simp [natDigitsAux, h, h1]
      · right
        refine ⟨d, t, hd, ?_⟩
        simp [natDigitsAux, h, ht]

theorem natRepr_head (n : Nat) : ∃ d t, d < 10 ∧ (natRepr n).data = digitChar d :: t := by
  have h : ∃ d t, d < 10 ∧ natDigitsAux (n + 1) n [] = digitChar d :: t := by
    by_cases hn : n < 10
    · exact ⟨n, [], hn, by simp [natDigitsAux, hn]⟩
    · rcases natDigitsAux_cases n (n / 10) [digitChar (n % 10)] with h1 | ⟨d, t, hd, ht⟩
      · exact ⟨n % 10, [], Nat.mod_lt n (by norm_num), by simp [natDigitsAux, hn, h1]⟩
      · exact ⟨d, t, hd, by simp [natDigitsAux, hn, ht]⟩
  rcases h with ⟨d, t, hd, ht⟩
  exact ⟨d, t, hd, by simp [natRepr, ht]⟩

theorem digitChar_toNat (d : Nat) (h : d < 10) : (digitChar d).toNat = 48 + d := by
  interval_cases d <;> rfl

/-- A string whose first character is ASCII and not 0x1f encodes to bytes
that fail the gzip sniff. -/
theorem notGzip_of_data_head (s : String) (c : Char) (cs : List Char)
    (hs : s.data = c :: cs) (hc : c.toNat < 128) (hne : c.toNat ≠ 31) :
    isGzipBytes (utf8Encode s) = false := by
  have he : utf8Encode s = c.toNat :: (cs.map charUtf8).flatten := by
    unfold utf8Encode
    rw [hs]
    simp [charUtf8, hc]
  rw [he]
  cases hfl : (cs.map charUtf8).flatten with
  | nil => rfl
  | cons b1 tl =>
    have h31 : (c.toNat == 31) = false := by
      simp [hne]
    simp [isGzipBytes, h31]

/-- The serialized form of a JSON value never carries the gzip magic
prefix: its first byte is the ASCII code of a brace, bracket, quote,
letter, minus sign or digit. -/
theorem stringify_not_gzip (x : JSValue) (hx : isJson x = true) :
    isGzipBytes (utf8Encode (jsonStringify x)) = false := by
  cases x with
  | undefined => simp [isJson] at hx
  | null => rfl
  | bool b => cases b <;> rfl
  | num q =>
    by_cases hq : q < 0
    · refine notGzip_of_data_head _ '-'
        ((natRepr q.num.natAbs ++ (if q.den == 1 then "" else "/" ++ natRepr q.den)).data)
        ?_ (by decide) (by decide)
      show (numToString q).data = _
      unfold numToString
      rw [if_pos hq]
      simp [String.data_append]
    · obtain ⟨d, t, hd, ht⟩ := natRepr_head q.num.natAbs
      refine notGzip_of_data_head _ (digitChar d)
        (t ++ ((if q.den == 1 then "" else "/" ++ natRepr q.den)).data) ?_ ?_ ?_
      · show (numToString q).data = _
        unfold numToString
        rw [if_neg hq, String.data_append, String.data_append, ht]
        rfl
      · rw [digitChar_toNat d hd]; omega
      · rw [digitChar_toNat d hd]; omega
  | str s =>
    refine notGzip_of_data_head _ '"'
      ((String.join (s.data.map escapeChar) ++ "\"").data) ?_ (by decide) (by decide)
    show (quoteJS s).data = _
    unfold quoteJS
    rw [String.data_append, String.data_append]
    rfl
  | arr xs =>
    refine notGzip_of_data_head _ '['
      ((commaJoin (xs.map (fun v => stringifyGo 999 v)) ++ "]").data) ?_ (by decide) (by decide)
    show (stringifyGo 1000 (JSValue.arr xs)).data = _
    rw [show stringifyGo 1000 (JSValue.arr xs)
        = "[" ++ commaJoin (xs.map (fun v => stringifyGo 999 v)) ++ "]" from rfl]
    rw [String.data_append, String.data_append]
    rfl
  | obj fs =>
    refine notGzip_of_data_head _ (Char.ofNat 123)
      ((commaJoin ((fs.filter (fun kv => !(isUndefV kv.2))).map
          (fun kv => quoteJS kv.1 ++ ":" ++ stringifyGo 999 kv.2)) ++ "\x7d").data)
      ?_ (by decide) (by decide)
    show (stringifyGo 1000 (JSValue.obj fs)).data = _
    rw [show stringifyGo 1000 (JSValue.obj fs)
        = "\x7b" ++ commaJoin ((fs.filter (fun kv => !(isUndefV kv.2))).map
            (fun kv => quoteJS kv.1 ++ ":" ++ stringifyGo 999 kv.2)) ++ "\x7d" from rfl]
    rw [String.data_append, String.data_append]
    rfl

/-- Claim C6: bytes with the gzip magic prefix are decompressed before
parsing and all other bytes are parsed directly; and for every
JSON-serializable value x (under any decompressor that inverts the
compressor and any compressor whose output carries the magic prefix),
normalizing gzip(json(x)) and normalizing json(x) yield the same
structured value. -/
theorem c6_normalizer (gz : List Nat → List Nat) (gunz : List Nat → Except String (List Nat))
    (hrt : ∀ bs, gunz (gz bs) = .ok bs) (hmag : ∀ bs, isGzipBytes (gz bs) = true)
    (t : String) (x : JSValue) (hx : isJson x = true) :
    (∀ b ev, isGzipBytes b = true → handleMessage gunz t b = .ok ev →
        (∃ d, gunz b = .ok d ∧ ev.raw = utf8Decode d) ∧ ev.isCompressed = true) ∧
    (∀ b ev, isGzipBytes b = false → handleMessage gunz t b = .ok ev →
        ev.raw = utf8Decode b ∧ ev.isCompressed = false) ∧
    (handleMessage gunz t (gz (utf8Encode (jsonStringify x)))).map (fun ev => ev.parsed)
      = (handleMessage gunz t (utf8Encode (jsonStringify x))).map (fun ev => ev.parsed) := by
  refine ⟨fun b ev hb hok => ?_, fun b ev hb hok => ?_, ?_⟩
  · rcases hgz : gunz b with e | d
    · simp [handleMessage, hb, hgz, Except.map] at hok
    · rw [handleMessage_gzip_eq gunz t b d hb hgz] at hok
      cases hp : jsonParse (utf8Decode d) with
      | error e => rw [hp] at hok; simp at hok
      | ok data =>
        rw [hp] at hok
        injection hok with h
        subst h
        exact ⟨⟨d, rfl, rfl⟩, rfl⟩
  · rw [handleMessage_plain_eq gunz t b hb] at hok
    cases hp : jsonParse (utf8Decode b) with
    | error e => rw [hp] at hok; simp at hok
    | ok data =>
      rw [hp] at hok
      injection hok with h
      subst h
      exact ⟨rfl, rfl⟩
  · have h1 : isGzipBytes (gz (utf8Encode (jsonStringify x))) = true := hmag _
    have h2 : gunz (gz (utf8Encode (jsonStringify x))) = .ok (utf8Encode (jsonStringify x)) :=
      hrt _
    have h3 : isGzipBytes (utf8Encode (jsonStringify x)) = false := stringify_not_gzip x hx
    rw [handleMessage_gzip_eq gunz t _ _ h1 h2, handleMessage_plain_eq gunz t _ h3]
    cases hp : jsonParse (utf8Decode (utf8Encode (jsonStringify x))) <;> simp [Except.map]

/-- Witness for C6: a toy framing pair (prepend the two magic bytes /
drop them) and the ticket-42 object; the compressed and plain routes
produce the same structured value. -/
theorem c6_normalizer_witness :
    (handleMessage (fun bs => .ok (bs.drop 2)) "t"
        ((fun bs => 31 :: 139 :: bs)
          (utf8Encode (jsonStringify
            (JSValue.obj [("ticket", JSValue.obj [("id", JSValue.num 42)])]))))).map
        (fun ev => ev.parsed)
      = (handleMessage (fun bs => .ok (bs.drop 2)) "t"
          (utf8Encode (jsonStringify
            (JSValue.obj [("ticket", JSValue.obj [("id", JSValue.num 42)])])))).map
        (fun ev => ev.parsed) :=
  (c6_normalizer (fun bs => 31 :: 139 :: bs) (fun bs => .ok (bs.drop 2))
    (fun _ => rfl) (fun _ => rfl) "t"
    (JSValue.obj [("ticket", JSValue.obj [("id", JSValue.num 42)])]) rfl).2.2

/-- Claim C1: a gzip-compressed message carrying the JSON text of a
ticket object with id 42, on topic orders/42, flows through the handler
and the viewer-side correlation layer to an event with isCompressed true,
correlationId 42 (the Correlation Resolver's result on the parsed
payload), a colorKey equal to the Color Key Assigner's result on that id
and distinct from the neutral gray, and parsed.ticket.id equal to 42. -/
theorem c1_end_to_end (gunz : List Nat → Except String (List Nat)) (b : List Nat)
    (hmag : isGzipBytes b = true) (hg : gunz b = .ok (utf8Encode json42String)) :
    (relayPipeline gunz "orders/42" b).map (fun v => v.isCompressed) = .ok true ∧
    (relayPipeline gunz "orders/42" b).map (fun v => v.correlationId) = .ok (some 42) ∧
    (relayPipeline gunz "orders/42" b).map (fun v => v.colorKey) =
      .ok (getTicketColor (some 42)) ∧
    getTicketColor (some 42) ≠ ColorKey.gray ∧
    ((relayPipeline gunz "orders/42" b).map (fun v => v.parsed) >>= fun p =>
        getProp p "ticket" >>= fun tk => getProp tk "id") = .ok (JSValue.num 42) := by
  have h1 : handleMessage gunz "orders/42" b =
      .ok ⟨"orders/42", b.length, true, json42String,
        JSValue.obj [("ticket", JSValue.obj [("id", JSValue.num 42)])]⟩ := by
    rw [handleMessage_gzip_eq gunz "orders/42" b _ hmag hg]
    rfl
  have h2 : relayPipeline gunz "orders/42" b =
      .ok ⟨"orders/42", b.length, true, json42String,
        JSValue.obj [("ticket", JSValue.obj [("id", JSValue.num 42)])],
        some 42, getTicketColor (some 42)⟩ := by
    unfold relayPipeline
    rw [h1]
    rfl
  refine ⟨by rw [h2]; rfl, by rw [h2]; rfl, by rw [h2]; rfl,
    fun h => ColorKey.noConfusion h, by rw [h2]; rfl⟩

/-- Witness for C1: the concrete two-byte framed message whose
decompression is the ticket-42 JSON text. -/
theorem c1_end_to_end_witness :
    (relayPipeline (fun _ => .ok (utf8Encode json42String)) "orders/42" [31, 139]).map
        (fun v => v.isCompressed) = .ok true ∧
    (relayPipeline (fun _ => .ok (utf8Encode json42String)) "orders/42" [31, 139]).map
        (fun v => v.correlationId) = .ok (some 42) ∧
    (relayPipeline (fun _ => .ok (utf8Encode json42String)) "orders/42" [31, 139]).map
        (fun v => v.colorKey) = .ok (getTicketColor (some 42)) ∧
    getTicketColor (some 42) ≠ ColorKey.gray ∧
    ((relayPipeline (fun _ => .ok (utf8Encode json42String)) "orders/42" [31, 139]).map
        (fun v => v.parsed) >>= fun p =>
        getProp p "ticket" >>= fun tk => getProp tk "id") = .ok (JSValue.num 42) :=
  c1_end_to_end (fun _ => .ok (utf8Encode json42String)) [31, 139] rfl rfl
